import Mathlib

set_option maxRecDepth 8192
set_option linter.unusedVariables false

/-!
Verification of the service layer of this repository.

`src/services/geminiService.ts` ships two revisions of the same module in one
file; we embed both and distinguish them by a `V1` / `V2` suffix:
the first revision (file lines 2-134) and the second revision (file lines
136-327).  `src/services/authService.ts` is embedded at the level of the
parsed local-storage contents; `JSON.parse`, `crypto.randomUUID` and
`Date.now` are external collaborators and appear as parameters.
-/

/-- An error value as the fallback loop inspects it: an optional HTTP-like
status code (JS `error.status` or `error.response.status`; `none` models an
absent/falsy status) and the `error.message` string. -/
structure ErrInfo where
  status : Option Nat
  message : String
deriving DecidableEq

/-- Outcome of invoking the supplied operation with one API key: a returned
value or a thrown error. -/
inductive OpResult (T : Type) where
  | ok (t : T)
  | err (e : ErrInfo)
deriving DecidableEq

/-- What `executeWithFallback` can throw: the re-raised original error
(revision 1, `throw error`) or a freshly constructed `Error` with a message
(the aggregated and configuration errors). -/
inductive Thrown where
  | original (e : ErrInfo)
  | wrapped (msg : String)
deriving DecidableEq

/-- Revision 1, line 43: `!status || [429, 500, 503].includes(status)`. -/
def isRetryable (st : Option Nat) : Bool :=
  match st with
  | none => true
  | some s => [429, 500, 503].contains s

/-- Whether an operation outcome is a retryably failed one. -/
def OpResult.isRetryErr {T : Type} : OpResult T → Bool
  | .ok _ => false
  | .err e => isRetryable e.status

/-- The loop of `Array.from(new Set(keys))`: keeps the first occurrence of
each key, preserving order; `seen` is the set built so far. -/
def dedupGo : List String → List String → List String
  | _, [] => []
  | seen, k :: rest =>
    if k ∈ seen then dedupGo seen rest else k :: dedupGo (k :: seen) rest

/-- `Array.from(new Set(keys))` (revision 1 line 32, revision 2 line 196). -/
def dedupKeys (keys : List String) : List String := dedupGo [] keys

/-- Revision 1 exhaustion message (line 51); when no error was recorded the
template literal renders `lastError?.message` as `undefined`. -/
def v1ExhaustMsg (group : String) (lastErr : Option ErrInfo) : String :=
  "Todas as APIs do Grupo " ++ group ++ " falharam. Verifique suas chaves. Erro: " ++
    (match lastErr with
     | some e => e.message
     | none => "undefined")

/-- The `for` loop of revision 1 `executeWithFallback` (lines 34-49) plus the
exhaustion throw (line 51).  Returns the list of keys the operation was
actually called with, in call order, together with the outcome.  A failure
with a present status outside {429, 500, 503} is terminal: the original
error is re-raised and no further key is tried. -/
def fallbackGoV1 {T : Type} (group : String) (op : String → OpResult T) :
    List String → Option ErrInfo → List String × Except Thrown T
  | [], lastErr => ([], .error (.wrapped (v1ExhaustMsg group lastErr)))
  | k :: rest, _ =>
    match op k with
    | .ok t => ([k], .ok t)
    | .err e =>
      if isRetryable e.status then
        let r := fallbackGoV1 group op rest (some e)
        (k :: r.1, r.2)
      else
        ([k], .error (.original e))

/-- Revision 1 `executeWithFallback` (lines 25-52): deduplicates the pool and
runs the loop; there is no empty-pool precondition check. -/
def executeWithFallbackV1 {T : Type} (group : String) (keys : List String)
    (op : String → OpResult T) : List String × Except Thrown T :=
  fallbackGoV1 group op (dedupKeys keys) none

/-- Whether `needle` occurs as a contiguous run inside the character list. -/
def listSub (needle : List Char) : List Char → Bool
  | [] => needle.isEmpty
  | c :: rest => needle.isPrefixOf (c :: rest) || listSub needle rest

/-- JS `hay.includes(sub)` on strings. -/
def strIncludes (hay sub : String) : Bool := listSub sub.data hay.data

/-- Revision 2 friendly classification of the last recorded error
(lines 219-226). -/
def v2Friendly (lastErr : Option ErrInfo) : String :=
  match lastErr with
  | some e =>
    if strIncludes e.message "API key" then "Chave de API inválida."
    else if strIncludes e.message "429" then "Sobrecarga no sistema. Aguarde 30s."
    else if strIncludes e.message "SAFETY" || strIncludes e.message "blocked" then
      "O Mentor foi censurado pelos filtros de segurança."
    else "Erro de conexão com o Mentor."
  | none => "Erro de conexão com o Mentor."

/-- Revision 2 exhaustion message (line 228):
the friendly prefix followed by `lastError?.message || 'Erro desconhecido'`
in parentheses.  Note it never mentions the group name. -/
def v2ExhaustMsg (lastErr : Option ErrInfo) : String :=
  v2Friendly lastErr ++ " (" ++
    (match lastErr with
     | some e => if e.message = "" then "Erro desconhecido" else e.message
     | none => "Erro desconhecido") ++ ")"

/-- Revision 2 empty-pool message (line 191). -/
def v2ConfigMsg : String :=
  "Nenhuma Chave de API válida encontrada. Verifique se a variável \x27API_KEY\x27 está configurada no Vercel."

/-- The `for` loop of revision 2 `executeWithFallback` (lines 198-216): the
catch block only logs; every failure proceeds to the next key (no terminal
classification), and exhaustion throws the friendly aggregate (line 228). -/
def fallbackGoV2 {T : Type} (op : String → OpResult T) :
    List String → Option ErrInfo → List String × Except Thrown T
  | [], lastErr => ([], .error (.wrapped (v2ExhaustMsg lastErr)))
  | k :: rest, _ =>
    match op k with
    | .ok t => ([k], .ok t)
    | .err e =>
      let r := fallbackGoV2 op rest (some e)
      (k :: r.1, r.2)

/-- Revision 2 `executeWithFallback` (lines 184-229): fails up front on an
empty pool, then deduplicates and runs the loop. -/
def executeWithFallbackV2 {T : Type} (group : String) (keys : List String)
    (op : String → OpResult T) : List String × Except Thrown T :=
  if keys.length = 0 then ([], .error (.wrapped v2ConfigMsg))
  else fallbackGoV2 op (dedupKeys keys) none

/-- The environment as revision 2 `getKey` sees it: the process environment
(`process.env`) and the build-tool environment (`import.meta.env`). -/
structure Env where
  procEnv : String → Option String
  viteEnv : String → Option String

/-- A JS truthiness lookup: an absent or empty-string value does not count. -/
def envLookup (f : String → Option String) (name : String) : Option String :=
  match f name with
  | some v => if v = "" then none else some v
  | none => none

/-- Revision 2 `getKey` (lines 141-162): process env first, then the vite
env, then the `VITE_`-prefixed vite name; empty string when all miss. -/
def getKey (env : Env) (name : String) : String :=
  match envLookup env.procEnv name with
  | some v => v
  | none =>
    match envLookup env.viteEnv name with
    | some v => v
    | none =>
      match envLookup env.viteEnv ("VITE_" ++ name) with
      | some v => v
      | none => ""

/-- JS `a || b` on strings: `b` when `a` is the empty string. -/
def jsOr (a b : String) : String := if a = "" then b else a

/-- Revision 2, line 165: `DEFAULT_KEY = getKey('API_KEY')`. -/
def defaultKeyV2 (env : Env) : String := getKey env "API_KEY"

/-- Revision 2 plausibility filter (line 172): `k && k.length > 5`. -/
def keyFilter (k : String) : Bool := (k != "") && decide (5 < k.length)

/-- Revision 2 `API_GROUPS.A` (lines 168-172). -/
def apiGroupA_V2 (env : Env) : List String :=
  [jsOr (getKey env "API_KEY_A1") (defaultKeyV2 env),
   jsOr (getKey env "API_KEY_A2") (defaultKeyV2 env),
   jsOr (getKey env "API_KEY_A3") (defaultKeyV2 env)].filter keyFilter

/-- Revision 2 `API_GROUPS.B` (lines 173-177). -/
def apiGroupB_V2 (env : Env) : List String :=
  [jsOr (getKey env "API_KEY_B1") (defaultKeyV2 env),
   jsOr (getKey env "API_KEY_B2") (defaultKeyV2 env),
   jsOr (getKey env "API_KEY_B3") (defaultKeyV2 env)].filter keyFilter

/-- Revision 2 `API_GROUPS.C` (lines 178-180). -/
def apiGroupC_V2 (env : Env) : List String :=
  [jsOr (getKey env "API_KEY_C1") (defaultKeyV2 env)].filter keyFilter

/-- Revision 1 reads `process.env` only; an absent value renders as `''`. -/
def getP (envP : String → Option String) (name : String) : String :=
  match envP name with
  | some v => v
  | none => ""

/-- Revision 1, line 6: `DEFAULT_KEY = process.env.API_KEY || ''`. -/
def defaultKeyV1 (envP : String → Option String) : String :=
  jsOr (getP envP "API_KEY") ""

/-- Revision 1 `API_GROUPS.A` (lines 9-13), filtered by `Boolean`. -/
def apiGroupA_V1 (envP : String → Option String) : List String :=
  [jsOr (getP envP "API_KEY_A1") (defaultKeyV1 envP),
   jsOr (getP envP "API_KEY_A2") (defaultKeyV1 envP),
   jsOr (getP envP "API_KEY_A3") (defaultKeyV1 envP)].filter (fun k => k != "")

/-- Revision 1 `API_GROUPS.B` (lines 14-18). -/
def apiGroupB_V1 (envP : String → Option String) : List String :=
  [jsOr (getP envP "API_KEY_B1") (defaultKeyV1 envP),
   jsOr (getP envP "API_KEY_B2") (defaultKeyV1 envP),
   jsOr (getP envP "API_KEY_B3") (defaultKeyV1 envP)].filter (fun k => k != "")

/-- Revision 1 `API_GROUPS.C` (lines 19-21). -/
def apiGroupC_V1 (envP : String → Option String) : List String :=
  [jsOr (getP envP "API_KEY_C1") (defaultKeyV1 envP)].filter (fun k => k != "")

/-- Revision 1 `getVoiceApiKey` (lines 56-60): first stored key of group B,
or a thrown error on an empty group.  It takes no operation and never enters
the fallback loop. -/
def getVoiceApiKeyV1 (keysB : List String) : Except String String :=
  if keysB.length = 0 then .error "No API keys available for Voice (Group B)"
  else .ok (keysB.headD "")

/-- Revision 2 `getVoiceApiKey` (lines 233-237). -/
def getVoiceApiKeyV2 (keysB : List String) : Except String String :=
  if keysB.length = 0 then .error "Chave de API de voz não configurada."
  else .ok (keysB.headD "")

/-- The part of an upstream response the operations inspect: the text payload
(the empty string models an absent or empty `response.text`) and the first
candidate finish reason, when one is reported. -/
structure GenResponse where
  text : String
  finishReason : Option String
deriving DecidableEq

/-- Revision 1 `generateTextResponse` response handling (lines 87-91): any
missing text raises a generic empty-response error. -/
def handleTextResponseV1 (r : GenResponse) : OpResult String :=
  if r.text = "" then .err ⟨none, "O modelo retornou uma resposta vazia."⟩
  else .ok r.text

/-- Revision 1 `generateMentalMapStructure` (line 132): returns the payload
unconditionally, with no inspection at all. -/
def handleMapResponseV1 (r : GenResponse) : OpResult String := .ok r.text

/-- Revision 2 `generateTextResponse` response handling (lines 268-276): on
missing text, a reported finish reason raises the distinct safety-block
error, otherwise the generic empty-response error. -/
def handleTextResponseV2 (r : GenResponse) : OpResult String :=
  if r.text = "" then
    match r.finishReason with
    | some reason => .err ⟨none, "Bloqueio de Segurança (Motivo: " ++ reason ++ ")"⟩
    | none => .err ⟨none, "Resposta vazia do modelo."⟩
  else .ok r.text

/-- Revision 2 `generateMentalMapStructure` handling (line 325):
`response.text || "Erro ao gerar mapa."` — it never raises. -/
def handleMapResponseV2 (r : GenResponse) : OpResult String :=
  .ok (if r.text = "" then "Erro ao gerar mapa." else r.text)

/-- A stored identity record, `src/services/authService.ts` lines 40-46. -/
structure StoredUser where
  id : String
  name : String
  email : String
  password : String
  createdAt : String
deriving DecidableEq

/-- The public profile written to the session entry and returned to the
caller (lines 51-56): no password field. -/
structure UserProfile where
  id : String
  name : String
  email : String
  createdAt : String
deriving DecidableEq

/-- JS `String.prototype.toLowerCase` on the character content. -/
def strToLower (s : String) : String := ⟨s.data.map Char.toLower⟩

/-- JS `String.prototype.trim`: strips whitespace from both ends. -/
def strTrim (s : String) : String :=
  ⟨((s.data.dropWhile Char.isWhitespace).reverse.dropWhile Char.isWhitespace).reverse⟩

/-- Line 34: `email.toLowerCase().trim()`. -/
def normalizeEmail (e : String) : String := strTrim (strToLower e)

/-- `authService.register` (lines 28-62) at the level of the parsed user
list.  The generated id and the creation timestamp come from externals
(`crypto`, `Date`) and are parameters.  On a duplicate normalized email the
function throws and nothing is written; on success it returns the new user
list (what is persisted), together with the public profile that is both
stored as the session and returned. -/
def register (users : List StoredUser) (name email password id createdAt : String) :
    Except String (List StoredUser × UserProfile) :=
  let n := normalizeEmail email
  if users.any (fun u => u.email == n) then
    .error "Este e-mail já está registrado no sistema."
  else
    let newUser : StoredUser := ⟨id, strTrim name, n, password, createdAt⟩
    .ok (users ++ [newUser], ⟨id, strTrim name, n, createdAt⟩)

/-- `authService.getCurrentUser` (lines 96-106) over the raw session entry.
`parse` models `JSON.parse` plus the cast (an external collaborator); `none`
is a parse failure.  Returns the produced profile (or absence) together with
the session entry as it stands after the call: a present but unparsable
entry is removed. -/
def getCurrentUser (sessionVal : Option String)
    (parse : String → Option UserProfile) : Option UserProfile × Option String :=
  match sessionVal with
  | none => (none, none)
  | some s =>
    match parse s with
    | some p => (some p, some s)
    | none => (none, none)

/-- `authService.logout` (lines 111-114): removes the session entry. -/
def logout (sessionVal : Option String) : Option String := none

/-- A process environment holding only the master credential; used as a
concrete configuration in several witnesses. -/
def envMasterOnly : Env :=
  ⟨fun n => if n = "API_KEY" then some "master-key" else none, fun _ => none⟩

/-- A process environment with nothing configured. -/
def envEmpty : Env := ⟨fun _ => none, fun _ => none⟩

/-! Helper lemmas shared by the claim theorems. -/

theorem listSub_of_isPrefixOf (needle l : List Char)
    (h : needle.isPrefixOf l = true) : listSub needle l = true := by
  cases l with
  | nil =>
    cases needle with
    | nil => rfl
    | cons c cs => simp [List.isPrefixOf] at h
  | cons c rest => simp [listSub, h]

theorem listSub_append_left (pre needle hay : List Char)
    (h : listSub needle hay = true) : listSub needle (pre ++ hay) = true := by
  induction pre with
  | nil => exact h
  | cons c pre ih => simp [listSub, ih]

theorem isPrefixOf_self_append (l post : List Char) :
    l.isPrefixOf (l ++ post) = true := by
  simp [List.isPrefixOf_iff_prefix]

theorem strData_append (s t : String) : (s ++ t).data = s.data ++ t.data := rfl

theorem strIncludes_middle (p s q : String) :
    strIncludes (p ++ s ++ q) s = true := by
  unfold strIncludes
  rw [strData_append, strData_append, List.append_assoc]
  exact listSub_append_left _ _ _
    (listSub_of_isPrefixOf _ _ (isPrefixOf_self_append _ _))

theorem isPrefixOf_self (l : List Char) : l.isPrefixOf l = true := by
  simp [List.isPrefixOf_iff_prefix]

theorem strIncludes_right (p s : String) : strIncludes (p ++ s) s = true := by
  unfold strIncludes
  rw [strData_append]
  exact listSub_append_left _ _ _
    (listSub_of_isPrefixOf _ _ (isPrefixOf_self s.data))

theorem dedupGo_nil (seen : List String) : dedupGo seen [] = [] := rfl

theorem dedupKeys_ne_nil {keys : List String} {k : String} {rest : List String}
    (h : dedupKeys keys = k :: rest) : keys ≠ [] := by
  intro hk
  subst hk
  simp [dedupKeys, dedupGo] at h

theorem dedupGo_spec (l : List String) :
    ∀ seen : List String, (dedupGo seen l).Nodup ∧ ∀ x ∈ dedupGo seen l, x ∉ seen := by
  induction l with
  | nil => intro seen; simp [dedupGo]
  | cons k rest ih =>
    intro seen
    by_cases h : k ∈ seen
    · simpa [dedupGo, h] using ih seen
    · obtain ⟨hnd, hmem⟩ := ih (k :: seen)
      refine ⟨?_, ?_⟩
      · simp only [dedupGo, if_neg h]
        exact List.Nodup.cons (fun hk => (hmem k hk) (List.mem_cons_self k seen)) hnd
      · intro x hx
        simp only [dedupGo, if_neg h, List.mem_cons] at hx
        rcases hx with rfl | hx
        · exact h
        · exact fun hxs => (hmem x hx) (List.mem_cons_of_mem _ hxs)

theorem dedupKeys_nodup (keys : List String) : (dedupKeys keys).Nodup :=
  (dedupGo_spec keys []).1

theorem fallbackGoV1_exhaust {T : Type} (group : String) (op : String → OpResult T) :
    ∀ (ks : List String) (k : String) (e : ErrInfo) (lastErr : Option ErrInfo),
      ks.getLast? = some k → (∀ x ∈ ks, (op x).isRetryErr = true) → op k = .err e →
      fallbackGoV1 group op ks lastErr =
        (ks, .error (.wrapped (v1ExhaustMsg group (some e)))) := by
  intro ks
  induction ks with
  | nil => intro k e lastErr h; simp at h
  | cons k1 rest ih =>
    intro k e lastErr hlast hall hke
    have h1 : (op k1).isRetryErr = true := hall k1 (List.mem_cons_self _ _)
    cases hop1 : op k1 with
    | ok t => rw [hop1] at h1; simp [OpResult.isRetryErr] at h1
    | err e1 =>
      have hr1 : isRetryable e1.status = true := by
        rw [hop1] at h1; simpa [OpResult.isRetryErr] using h1
      cases rest with
      | nil =>
        have hkk : k1 = k := by simpa using hlast
        subst hkk
        have he : e1 = e := by
          rw [hop1] at hke
          exact (OpResult.err.injEq _ _).mp hke.symm |>.symm
        subst he
        simp [fallbackGoV1, hop1, hr1]
      | cons k2 rest2 =>
        have hlast2 : (k2 :: rest2).getLast? = some k := by
          rwa [List.getLast?_cons_cons] at hlast
        have hall2 : ∀ x ∈ k2 :: rest2, (op x).isRetryErr = true := by
          intro x hx; exact hall x (List.mem_cons_of_mem _ hx)
        have hrec := ih k e (some e1) hlast2 hall2 hke
        have hstep : fallbackGoV1 group op (k1 :: k2 :: rest2) lastErr =
            (k1 :: (fallbackGoV1 group op (k2 :: rest2) (some e1)).1,
             (fallbackGoV1 group op (k2 :: rest2) (some e1)).2) := by
          simp [fallbackGoV1, hop1, hr1]
        rw [hstep, hrec]

theorem fallbackGoV2_exhaust {T : Type} (op : String → OpResult T) :
    ∀ (ks : List String) (k : String) (e : ErrInfo) (lastErr : Option ErrInfo),
      ks.getLast? = some k → (∀ x ∈ ks, (op x).isRetryErr = true) → op k = .err e →
      fallbackGoV2 op ks lastErr = (ks, .error (.wrapped (v2ExhaustMsg (some e)))) := by
  intro ks
  induction ks with
  | nil => intro k e lastErr h; simp at h
  | cons k1 rest ih =>
    intro k e lastErr hlast hall hke
    have h1 : (op k1).isRetryErr = true := hall k1 (List.mem_cons_self _ _)
    cases hop1 : op k1 with
    | ok t => rw [hop1] at h1; simp [OpResult.isRetryErr] at h1
    | err e1 =>
      cases rest with
      | nil =>
        have hkk : k1 = k := by simpa using hlast
        subst hkk
        have he : e1 = e := by
          rw [hop1] at hke
          exact (OpResult.err.injEq _ _).mp hke.symm |>.symm
        subst he
        simp [fallbackGoV2, hop1]
      | cons k2 rest2 =>
        have hlast2 : (k2 :: rest2).getLast? = some k := by
          rwa [List.getLast?_cons_cons] at hlast
        have hall2 : ∀ x ∈ k2 :: rest2, (op x).isRetryErr = true := by
          intro x hx; exact hall x (List.mem_cons_of_mem _ hx)
        have hrec := ih k e (some e1) hlast2 hall2 hke
        have hstep : fallbackGoV2 op (k1 :: k2 :: rest2) lastErr =
            (k1 :: (fallbackGoV2 op (k2 :: rest2) (some e1)).1,
             (fallbackGoV2 op (k2 :: rest2) (some e1)).2) := by
          simp [fallbackGoV2, hop1]
        rw [hstep, hrec]

/-! Concrete configurations and operations used by witnesses and
counterexamples. -/

/-- Operation failing with status 400 on a designated first key and
succeeding on any other key. -/
def opC1 : String → OpResult String :=
  fun k => if k = "key-one" then .err ⟨some 400, "bad request"⟩ else .ok "hello"

/-- Operation that always fails retryably with message "boom". -/
def opC3 : String → OpResult String := fun _ => .err ⟨some 500, "boom"⟩

/-- Operation failing with 429 on the first two designated keys and
succeeding elsewhere. -/
def opC7 : String → OpResult String := fun k =>
  if k = "alpha-key" then .err ⟨some 429, "rate limited"⟩
  else if k = "beta-key" then .err ⟨some 429, "rate limited"⟩
  else .ok "done"

/-- A process-only environment holding just the master credential, for the
revision 1 resolver. -/
def envPMaster : String → Option String :=
  fun n => if n = "API_KEY" then some "master-key" else none

/-- A process-only environment with nothing configured. -/
def envPEmpty : String → Option String := fun _ => none

/-- C1.  The claim reads: an attempt failing with a present status outside
{429, 500, 503} makes the invoker abort immediately, re-raise the original
error, and skip the remaining credentials.  Only revision 1 behaves so: this
theorem proves the amended statement, namely that revision 1 aborts with the
original error after exactly one call, while revision 2 continues into the
remaining credentials after any failure. -/
theorem c1_terminal_abort {T : Type} (group : String) (keys : List String)
    (op : String → OpResult T) (k : String) (rest : List String) (e : ErrInfo)
    (hd : dedupKeys keys = k :: rest) (hop : op k = .err e)
    (hterm : isRetryable e.status = false) :
    executeWithFallbackV1 group keys op = ([k], .error (.original e)) ∧
    executeWithFallbackV2 group keys op =
      (k :: (fallbackGoV2 op rest (some e)).1, (fallbackGoV2 op rest (some e)).2) := by
  have hne : keys ≠ [] := dedupKeys_ne_nil hd
  constructor
  · simp [executeWithFallbackV1, hd, fallbackGoV1, hop, hterm]
  · have hlen : ¬ keys.length = 0 := by simpa [List.length_eq_zero] using hne
    simp [executeWithFallbackV2, hlen, hd, fallbackGoV2, hop]

/-- C1 witness: with pool `["key-one", "key-two"]` and `opC1` failing with
status 400 on the first key, revision 1 calls the operation exactly once and
re-raises the original error. -/
theorem c1_terminal_abort_witness :
    dedupKeys ["key-one", "key-two"] = ["key-one", "key-two"] ∧
    opC1 "key-one" = .err ⟨some 400, "bad request"⟩ ∧
    isRetryable (some 400) = false ∧
    executeWithFallbackV1 "A" ["key-one", "key-two"] opC1
      = (["key-one"], .error (.original ⟨some 400, "bad request"⟩)) :=
  ⟨by decide, by decide, by decide,
    (c1_terminal_abort "A" ["key-one", "key-two"] opC1 "key-one" ["key-two"]
      ⟨some 400, "bad request"⟩ (by decide) (by decide) (by decide)).1⟩

/-- C1 counterexample: in revision 2 the same status-400 failure on the
first of two distinct credentials does not abort — the operation is called a
second time and its success is returned, so the claim is false of the
second revision of `executeWithFallback`. -/
theorem c1_counterexample :
    executeWithFallbackV2 "A" ["key-one", "key-two"] opC1
      = (["key-one", "key-two"], .ok "hello") := rfl

/-- C2.  The claim reads: on an empty pool the invoker fails immediately
with a `ConfigurationError` naming the pool and the expected environment
variable, without calling the operation.  Amended: both revisions fail
immediately with no call (the returned call list is empty); revision 2
throws the configuration message, which names the environment variable
`API_KEY` but not the pool, and revision 1 throws its aggregated-failure
message instead of a distinct configuration error. -/
theorem c2_empty_pool {T : Type} (group : String) (op : String → OpResult T) :
    executeWithFallbackV1 group [] op
      = ([], .error (.wrapped (v1ExhaustMsg group none))) ∧
    executeWithFallbackV2 group [] op = ([], .error (.wrapped v2ConfigMsg)) ∧
    strIncludes v2ConfigMsg "API_KEY" = true :=
  ⟨rfl, rfl, by decide⟩

/-- C2 counterexample: for pool "B" the revision 2 empty-pool error message
does not contain the pool name at all, so the claim that it names the pool
is false (the operation is indeed never called). -/
theorem c2_counterexample :
    executeWithFallbackV2 "B" ([] : List String) opC3
      = ([], .error (.wrapped v2ConfigMsg)) ∧
    strIncludes v2ConfigMsg "B" = false :=
  ⟨rfl, by decide⟩

/-- C7.  With at least three distinct credentials at the head of the
deduplicated pool, an operation failing with status 429 on the first two and
succeeding on the third yields the third call result; the operation is
called exactly three times, in stored order, under both revisions. -/
theorem c7_three_keys {T : Type} (group : String) (keys : List String)
    (op : String → OpResult T) (k1 k2 k3 : String) (rest : List String)
    (e1 e2 : ErrInfo) (t : T)
    (hd : dedupKeys keys = k1 :: k2 :: k3 :: rest)
    (h1 : op k1 = .err e1) (hs1 : e1.status = some 429)
    (h2 : op k2 = .err e2) (hs2 : e2.status = some 429)
    (h3 : op k3 = .ok t) :
    executeWithFallbackV1 group keys op = ([k1, k2, k3], .ok t) ∧
    executeWithFallbackV2 group keys op = ([k1, k2, k3], .ok t) := by
  have hne : keys ≠ [] := dedupKeys_ne_nil hd
  have hr1 : isRetryable e1.status = true := by rw [hs1]; decide
  have hr2 : isRetryable e2.status = true := by rw [hs2]; decide
  constructor
  · simp [executeWithFallbackV1, hd, fallbackGoV1, h1, h2, h3, hr1, hr2]
  · have hlen : ¬ keys.length = 0 := by simpa [List.length_eq_zero] using hne
    simp [executeWithFallbackV2, hlen, hd, fallbackGoV2, h1, h2, h3]

/-- C7 witness: three distinct keys, 429 twice, success on the third; both
revisions return "done" after exactly the three calls in order. -/
theorem c7_three_keys_witness :
    dedupKeys ["alpha-key", "beta-key", "gamma-key"]
      = ["alpha-key", "beta-key", "gamma-key"] ∧
    executeWithFallbackV1 "A" ["alpha-key", "beta-key", "gamma-key"] opC7
      = (["alpha-key", "beta-key", "gamma-key"], .ok "done") ∧
    executeWithFallbackV2 "A" ["alpha-key", "beta-key", "gamma-key"] opC7
      = (["alpha-key", "beta-key", "gamma-key"], .ok "done") := by
  have h := c7_three_keys "A" ["alpha-key", "beta-key", "gamma-key"] opC7
    "alpha-key" "beta-key" "gamma-key" [] ⟨some 429, "rate limited"⟩
    ⟨some 429, "rate limited"⟩ "done" (by decide) (by decide) (by decide)
    (by decide) (by decide) (by decide)
  exact ⟨by decide, h.1, h.2⟩

/-- C10.  `getVoiceApiKey` returns the first stored credential of the group
B pool (no deduplication: the witness pool has duplicate entries and the
head is returned as stored) and throws when the pool is empty; the
definitions take no operation, so no operation or fallback loop is ever
invoked.  Proved for both revisions. -/
theorem c10_voice_key (env env2 : Env) (envP envP2 : String → Option String)
    (k k1 : String) (rest rest1 : List String)
    (h2 : apiGroupB_V2 env = k :: rest) (h2e : apiGroupB_V2 env2 = [])
    (h1 : apiGroupB_V1 envP = k1 :: rest1) (h1e : apiGroupB_V1 envP2 = []) :
    getVoiceApiKeyV2 (apiGroupB_V2 env) = .ok k ∧
    getVoiceApiKeyV2 (apiGroupB_V2 env2)
      = .error "Chave de API de voz não configurada." ∧
    getVoiceApiKeyV1 (apiGroupB_V1 envP) = .ok k1 ∧
    getVoiceApiKeyV1 (apiGroupB_V1 envP2)
      = .error "No API keys available for Voice (Group B)" := by
  rw [h2, h2e, h1, h1e]
  simp [getVoiceApiKeyV1, getVoiceApiKeyV2]

/-- C10 witness: with only the master credential configured the group B
pool stores three duplicate entries; `getVoiceApiKey` still returns the
first one as stored, and with nothing configured it throws. -/
theorem c10_voice_key_witness :
    apiGroupB_V2 envMasterOnly = ["master-key", "master-key", "master-key"] ∧
    getVoiceApiKeyV2 (apiGroupB_V2 envMasterOnly) = .ok "master-key" ∧
    getVoiceApiKeyV2 (apiGroupB_V2 envEmpty)
      = .error "Chave de API de voz não configurada." ∧
    getVoiceApiKeyV1 (apiGroupB_V1 envPMaster) = .ok "master-key" ∧
    getVoiceApiKeyV1 (apiGroupB_V1 envPEmpty)
      = .error "No API keys available for Voice (Group B)" := by
  have h := c10_voice_key envMasterOnly envEmpty envPMaster envPEmpty
    "master-key" "master-key" ["master-key", "master-key"]
    ["master-key", "master-key"] (by decide) (by decide) (by decide) (by decide)
  exact ⟨by decide, h.1, h.2.1, h.2.2.1, h.2.2.2⟩

/-- Convenient spelled-out form of the revision 1 exhaustion message. -/
theorem v1ExhaustMsg_middle (group : String) (e : ErrInfo) :
    v1ExhaustMsg group (some e)
      = "Todas as APIs do Grupo " ++ group ++
        (" falharam. Verifique suas chaves. Erro: " ++ e.message) := by
  simp [v1ExhaustMsg, String.append_assoc]

/-- C3.  The claim reads: when every distinct credential fails retryably the
invoker raises one aggregated error whose message includes the pool name and
the last error message.  Amended: revision 1's aggregated message includes
both; revision 2's aggregated message carries the last error message behind
a friendly classification but never mentions the pool name. -/
theorem c3_exhaustion {T : Type} (group : String) (keys ks : List String)
    (op : String → OpResult T) (k : String) (e : ErrInfo)
    (hd : dedupKeys keys = ks) (hlast : ks.getLast? = some k)
    (hall : ∀ x ∈ ks, (op x).isRetryErr = true) (hke : op k = .err e) :
    executeWithFallbackV1 group keys op
      = (ks, .error (.wrapped (v1ExhaustMsg group (some e)))) ∧
    executeWithFallbackV2 group keys op
      = (ks, .error (.wrapped (v2ExhaustMsg (some e)))) ∧
    strIncludes (v1ExhaustMsg group (some e)) group = true ∧
    strIncludes (v1ExhaustMsg group (some e)) e.message = true := by
  have hksne : ks ≠ [] := by
    intro h; rw [h] at hlast; simp at hlast
  have hne : keys ≠ [] := by
    intro h; subst h; rw [dedupKeys] at hd; rw [dedupGo_nil] at hd
    exact hksne hd.symm
  refine ⟨?_, ?_, ?_, ?_⟩
  · unfold executeWithFallbackV1
    rw [hd]
    exact fallbackGoV1_exhaust group op ks k e none hlast hall hke
  · have hlen : ¬ keys.length = 0 := by simpa [List.length_eq_zero] using hne
    unfold executeWithFallbackV2
    rw [if_neg hlen, hd]
    exact fallbackGoV2_exhaust op ks k e none hlast hall hke
  · rw [v1ExhaustMsg_middle]
    exact strIncludes_middle _ _ _
  · have h4 : v1ExhaustMsg group (some e)
        = ("Todas as APIs do Grupo " ++ group ++
           " falharam. Verifique suas chaves. Erro: ") ++ e.message := by
      simp [v1ExhaustMsg, String.append_assoc]
    rw [h4]
    exact strIncludes_right _ _

/-- C3 witness: one credential failing retryably with message "boom" on pool
"A": revision 1 aggregates the pool name and the last message; revision 2
produces its friendly aggregate carrying "boom". -/
theorem c3_exhaustion_witness :
    (∀ x ∈ ["key-one"], (opC3 x).isRetryErr = true) ∧
    executeWithFallbackV1 "A" ["key-one"] opC3
      = (["key-one"], .error (.wrapped
          "Todas as APIs do Grupo A falharam. Verifique suas chaves. Erro: boom")) ∧
    executeWithFallbackV2 "A" ["key-one"] opC3
      = (["key-one"], .error (.wrapped "Erro de conexão com o Mentor. (boom)")) := by
  have h := c3_exhaustion "A" ["key-one"] ["key-one"] opC3 "key-one"
    ⟨some 500, "boom"⟩ (by decide) (by decide) (by decide) (by decide)
  exact ⟨by decide, h.1, h.2.1⟩

/-- C3 counterexample: the revision 2 aggregated message for pool "A" is
"Erro de conexão com o Mentor. (boom)", which does not contain the pool name
"A", so the claim that the aggregated message includes the pool name is
false of the second revision. -/
theorem c3_counterexample :
    executeWithFallbackV2 "A" ["key-one"] opC3
      = (["key-one"], .error (.wrapped "Erro de conexão com o Mentor. (boom)")) ∧
    strIncludes "Erro de conexão com o Mentor. (boom)" "A" = false :=
  ⟨rfl, by decide⟩

/-- C4.  The claim reads: every resolved pool with at least one candidate
has no duplicates and no entries below the plausibility threshold.  Amended:
every entry of every resolved pool does pass the revision's filter (length
above 5 in revision 2, non-empty in revision 1), but the stored pool may
contain duplicates; only the deduplicated sequence formed inside
`executeWithFallback` is duplicate-free. -/
theorem c4_pool_invariants (env : Env) (envP : String → Option String) :
    (∀ k ∈ apiGroupA_V2 env, keyFilter k = true) ∧
    (∀ k ∈ apiGroupB_V2 env, keyFilter k = true) ∧
    (∀ k ∈ apiGroupC_V2 env, keyFilter k = true) ∧
    (∀ k ∈ apiGroupA_V1 envP, k ≠ "") ∧
    (∀ k ∈ apiGroupB_V1 envP, k ≠ "") ∧
    (∀ k ∈ apiGroupC_V1 envP, k ≠ "") ∧
    (dedupKeys (apiGroupA_V2 env)).Nodup ∧
    (dedupKeys (apiGroupB_V2 env)).Nodup ∧
    (dedupKeys (apiGroupC_V2 env)).Nodup := by
  refine ⟨?_, ?_, ?_, ?_, ?_, ?_,
    dedupKeys_nodup _, dedupKeys_nodup _, dedupKeys_nodup _⟩
  · exact fun k hk => (List.mem_filter.mp hk).2
  · exact fun k hk => (List.mem_filter.mp hk).2
  · exact fun k hk => (List.mem_filter.mp hk).2
  · exact fun k hk => by simpa using (List.mem_filter.mp hk).2
  · exact fun k hk => by simpa using (List.mem_filter.mp hk).2
  · exact fun k hk => by simpa using (List.mem_filter.mp hk).2

/-- C4 witness: the master-only configuration produces a non-empty pool A
whose member passes the plausibility filter. -/
theorem c4_pool_invariants_witness :
    ("master-key" ∈ apiGroupA_V2 envMasterOnly) ∧ keyFilter "master-key" = true :=
  ⟨by decide, (c4_pool_invariants envMasterOnly envPMaster).1 "master-key" (by decide)⟩

/-- C4 counterexample: with only the master credential configured, pool A
stores the master three times — the resolved pool itself has duplicate
entries, so the claim as stated is false. -/
theorem c4_counterexample :
    apiGroupA_V2 envMasterOnly = ["master-key", "master-key", "master-key"] ∧
    ¬ (apiGroupA_V2 envMasterOnly).Nodup :=
  ⟨by decide, by decide⟩

/-- C5.  The claim reads: with zero pool-specific candidates and a plausible
master credential the resolved pool equals `[master]`.  Amended: pools A and
B resolve to three copies of the master (one per slot) and pool C to a
single copy; the deduplicated sequence the invoker actually tries equals
`[master]`. -/
theorem c5_master_fallback (env : Env) (m : String)
    (hA1 : getKey env "API_KEY_A1" = "") (hA2 : getKey env "API_KEY_A2" = "")
    (hA3 : getKey env "API_KEY_A3" = "") (hB1 : getKey env "API_KEY_B1" = "")
    (hB2 : getKey env "API_KEY_B2" = "") (hB3 : getKey env "API_KEY_B3" = "")
    (hC1 : getKey env "API_KEY_C1" = "") (hm : getKey env "API_KEY" = m)
    (hlen : 5 < m.length) :
    apiGroupA_V2 env = [m, m, m] ∧ apiGroupB_V2 env = [m, m, m] ∧
    apiGroupC_V2 env = [m] ∧ dedupKeys (apiGroupA_V2 env) = [m] := by
  have hne : (m != "") = true := by
    rcases eq_or_ne m "" with rfl | h
    · exact absurd hlen (by decide)
    · simpa using h
  have hpl : keyFilter m = true := by simp [keyFilter, hne, hlen]
  have hA : apiGroupA_V2 env = [m, m, m] := by
    simp [apiGroupA_V2, jsOr, defaultKeyV2, hA1, hA2, hA3, hm, List.filter, hpl]
  have hB : apiGroupB_V2 env = [m, m, m] := by
    simp [apiGroupB_V2, jsOr, defaultKeyV2, hB1, hB2, hB3, hm, List.filter, hpl]
  have hC : apiGroupC_V2 env = [m] := by
    simp [apiGroupC_V2, jsOr, defaultKeyV2, hC1, hm, List.filter, hpl]
  refine ⟨hA, hB, hC, ?_⟩
  rw [hA]
  simp [dedupKeys, dedupGo]

/-- C5 witness: with only `API_KEY = "master-key"` configured, pool C equals
`["master-key"]` and the deduplicated pool A sequence equals
`["master-key"]`. -/
theorem c5_master_fallback_witness :
    getKey envMasterOnly "API_KEY" = "master-key" ∧
    apiGroupC_V2 envMasterOnly = ["master-key"] ∧
    dedupKeys (apiGroupA_V2 envMasterOnly) = ["master-key"] := by
  have h := c5_master_fallback envMasterOnly "master-key"
    (by decide) (by decide) (by decide) (by decide) (by decide) (by decide)
    (by decide) (by decide) (by decide)
  exact ⟨by decide, h.2.2.1, h.2.2.2⟩

/-- C5 counterexample: under the same master-only configuration the resolved
pool A is `["master-key", "master-key", "master-key"]`, not the one-element
sequence `["master-key"]`, so the claim as stated is false. -/
theorem c5_counterexample :
    apiGroupA_V2 envMasterOnly = ["master-key", "master-key", "master-key"] ∧
    apiGroupA_V2 envMasterOnly ≠ ["master-key"] :=
  ⟨by decide, by decide⟩

/-- C6.  The claim reads: both generative operations raise a distinct
safety-block error when output is withheld for policy reasons.  Amended:
revision 2's `generateTextResponse` does raise the distinct
"Bloqueio de Segurança" error naming the finish reason; its
`generateMentalMapStructure` never raises — every response yields a
successful result (the placeholder "Erro ao gerar mapa." when text is
missing); revision 1's text operation raises only a generic empty-response
error and its map operation returns the payload unchanged. -/
theorem c6_safety_block :
    (∀ reason : String, handleTextResponseV2 ⟨"", some reason⟩
      = .err ⟨none, "Bloqueio de Segurança (Motivo: " ++ reason ++ ")"⟩) ∧
    (∀ r : GenResponse, ∃ s : String, handleMapResponseV2 r = .ok s) ∧
    (∀ r : GenResponse, r.text = "" → handleTextResponseV1 r
      = .err ⟨none, "O modelo retornou uma resposta vazia."⟩) ∧
    (∀ r : GenResponse, handleMapResponseV1 r = .ok r.text) := by
  refine ⟨fun reason => rfl, fun r => ⟨_, rfl⟩, fun r h => ?_, fun r => rfl⟩
  simp [handleTextResponseV1, h]

/-- C6 witness: a safety-withheld response (empty text, finish reason
"SAFETY") makes revision 2's text operation raise the distinct safety-block
error and revision 1's text operation raise the generic error. -/
theorem c6_safety_block_witness :
    handleTextResponseV2 ⟨"", some "SAFETY"⟩
      = .err ⟨none, "Bloqueio de Segurança (Motivo: SAFETY)"⟩ ∧
    handleTextResponseV1 ⟨"", some "SAFETY"⟩
      = .err ⟨none, "O modelo retornou uma resposta vazia."⟩ :=
  ⟨c6_safety_block.1 "SAFETY", c6_safety_block.2.2.1 ⟨"", some "SAFETY"⟩ rfl⟩

/-- C6 counterexample: on a safety-withheld response the structured-outline
operation of revision 2 succeeds with the placeholder text instead of
raising any error, so the claim that both operations raise a
`SafetyBlockedError` is false. -/
theorem c6_counterexample :
    handleMapResponseV2 ⟨"", some "SAFETY"⟩ = .ok "Erro ao gerar mapa." := rfl

/-- C8.  In any store state whose records carry normalized emails (the
invariant `register` itself maintains: it only ever appends records with
normalized emails), registering with an email equal after lower-casing and
trimming to a stored record's email throws the duplicate-identity error —
and, the embedding returning the persisted list only on success, nothing is
written. -/
theorem c8_duplicate_email (users : List StoredUser)
    (name email password id createdAt : String)
    (hnorm : ∀ u ∈ users, u.email = normalizeEmail u.email)
    (u : StoredUser) (hu : u ∈ users)
    (heq : normalizeEmail email = normalizeEmail u.email) :
    register users name email password id createdAt
      = .error "Este e-mail já está registrado no sistema." := by
  have hmem : u.email = normalizeEmail email := by rw [hnorm u hu, heq]
  have hany : users.any (fun v => v.email == normalizeEmail email) = true := by
    refine List.any_eq_true.mpr ⟨u, hu, ?_⟩
    exact beq_iff_eq.mpr hmem
  simp [register, hany]

/-- C8 witness: the spec's concrete scenario. `register("Ana","Ana@X.com",
"pw")` stores the normalized email "ana@x.com"; a second registration with
"ana@x.com" throws the duplicate-identity error. -/
theorem c8_duplicate_email_witness :
    register [] "Ana" "Ana@X.com" "pw" "id-1" "t-1"
      = .ok ([⟨"id-1", "Ana", "ana@x.com", "pw", "t-1"⟩],
             ⟨"id-1", "Ana", "ana@x.com", "t-1"⟩) ∧
    register [⟨"id-1", "Ana", "ana@x.com", "pw", "t-1"⟩] "x" "ana@x.com"
        "pw2" "id-2" "t-2"
      = .error "Este e-mail já está registrado no sistema." :=
  ⟨rfl, c8_duplicate_email [⟨"id-1", "Ana", "ana@x.com", "pw", "t-1"⟩]
    "x" "ana@x.com" "pw2" "id-2" "t-2" (by decide)
    ⟨"id-1", "Ana", "ana@x.com", "pw", "t-1"⟩ (by decide) (by decide)⟩

/-- C9.  `getCurrentUser` returns absent after `logout` (the session entry
is gone), and on a present but unparsable session value it returns absent
and deletes the entry — its result is a value, never a thrown error. -/
theorem c9_session (s : Option String) (badStr : String)
    (parse : String → Option UserProfile) (hbad : parse badStr = none) :
    getCurrentUser (logout s) parse = (none, none) ∧
    getCurrentUser (some badStr) parse = (none, none) := by
  constructor
  · rfl
  · simp [getCurrentUser, hbad]

/-- Parse function on which every string is corrupt, modelling `JSON.parse`
throwing on non-JSON input. -/
def parseNone : String → Option UserProfile := fun _ => none

/-- C9 witness: after a logout the current user is absent, and a corrupted
session string yields absent with the entry deleted. -/
theorem c9_session_witness :
    getCurrentUser (logout (some "session-entry")) parseNone = (none, none) ∧
    getCurrentUser (some "corrupted ~~ not json") parseNone = (none, none) :=
  c9_session (some "session-entry") "corrupted ~~ not json" parseNone rfl
